import Mathlib

/-!
Shallow embedding of the quark IPAM core: the v6 address generators, the
claim (limited-row update) primitives, the reuse and create allocation
paths, the subnet selector ordering, and the allocation strategies.
Definitions are translated from `quark/ipam.py` and `quark/db/api.py`.
Database side effects are made explicit: tables are lists of row records,
an `UPDATE ... LIMIT 1` is a function from a row list to a row list plus a
row count, and nondeterministic environment outcomes (insert conflicts,
rows found by a query) are parameters of the embedded functions.
-/

/-- An IPAddress row (quark_ip_addresses), restricted to the columns the
IPAM engine reads or writes on the allocation paths. Addresses are the
canonical integers the store keeps. -/
structure IPRow where
  address : Int
  version : Nat
  subnet_id : Nat
  network_id : Nat
  deallocated : Bool
  deallocated_at : Option Int
  used_by_tenant_id : Nat
  transaction_id : Option Nat
deriving DecidableEq, Repr

/-- A Subnet row, restricted to the columns the create path and the subnet
selector read. `cidr_base` is the integer value of the subnet's cidr network
address (netaddr's `IPNetwork(cidr).value`). -/
structure SubnetRow where
  id : Nat
  network_id : Nat
  segment_id : Option Nat
  ip_version : Nat
  cidr_base : Nat
  first_ip : Int
  last_ip : Int
  next_auto_assign_ip : Int
  do_not_use : Bool
deriving DecidableEq, Repr

/-- The error kinds of section 7 that the allocation engine raises
(quark/exceptions.py and neutron exceptions). -/
inductive IpamError where
  | macAddressGenerationFailure
  | ipAddressGenerationFailure
  | ipAddressInUse
  | ipAddressRetryableFailure
  | ipAddressPolicyRetryableFailure
deriving DecidableEq, Repr

/-! ## v6 generators (ipam.py: rfc2462_ip, rfc3041_ip, generate_v6) -/

/-- ipam.py `MAGIC_INT = 144115188075855872` (`::0200:0:0:0`, the
universal/local flip mask). -/
def MAGIC_INT : Nat := 144115188075855872

/-- netaddr `EUI(mac).eui64().value` for a 48-bit MAC: split the EUI-48 in
the middle and insert FFFE. -/
def eui64 (mac : Nat) : Nat :=
  (mac / 2 ^ 24) * 2 ^ 40 + 0xFFFE * 2 ^ 24 + mac % 2 ^ 24

/-- ipam.py `rfc2462_ip(mac, cidr)`: the modified-EUI-64 address
`cidr_base + eui64(mac)` XOR-ed with MAGIC_INT. -/
def rfc2462_ip (mac cidr : Nat) : Nat :=
  (cidr + eui64 mac) ^^^ MAGIC_INT

/-- The state of Python's global `random` module as rfc3041_ip uses it: the
seed last passed to `random.seed` and the position in that seed's stream.
The module-level pseudo-random function itself is left as a parameter
`rb : seed → position → value` of the definitions below: every theorem
holds for any such function, so in particular for the Mersenne Twister. -/
structure RandState where
  seed : Nat
  pos : Nat
deriving DecidableEq, Repr

/-- One `random.getrandbits(64)` call: read the stream at the current
position and advance. -/
def getrandbits64 (rb : Nat → Nat → Nat) (s : RandState) : Nat × RandState :=
  (rb s.seed s.pos, ⟨s.seed, s.pos + 1⟩)

/-- The control point of a `generate_v6(mac, port_id, cidr)` generator:
about to yield the rfc2462 address, about to run `random.seed` (the first
line of rfc3041_ip), or inside the rfc3041 loop. -/
inductive V6Gen where
  | beforeMac (mac : Nat)
  | beforeSeed
  | randing
deriving DecidableEq, Repr

/-- ipam.py `generate_v6`: with a MAC the generator starts at the rfc2462
yield, without one it starts directly at rfc3041_ip. -/
def generateV6Init : Option Nat → V6Gen
  | some m => .beforeMac m
  | none => .beforeSeed

/-- One `next()` on a generate_v6 generator. `g` is the global random-module
state: the rfc3041 seeding step replaces it with the port_id-seeded state
(`random.seed(int(uuid.UUID(port_id)))`), and each later step draws 64 bits
from it (`cidr_base + random.getrandbits(64)` XOR MAGIC_INT). -/
def v6step (rb : Nat → Nat → Nat) (portId cidr : Nat) :
    V6Gen → RandState → Nat × V6Gen × RandState
  | .beforeMac m, g => (rfc2462_ip m cidr, .beforeSeed, g)
  | .beforeSeed, _ =>
      let s0 : RandState := ⟨portId, 0⟩
      let (v, s1) := getrandbits64 rb s0
      ((cidr + v) ^^^ MAGIC_INT, .randing, s1)
  | .randing, g =>
      let (v, g1) := getrandbits64 rb g
      ((cidr + v) ^^^ MAGIC_INT, .randing, g1)

/-- The first `n` values a generate_v6 generator yields from control point
`st` with global random state `g`, together with the final states. -/
def v6take (rb : Nat → Nat → Nat) (portId cidr : Nat) :
    Nat → V6Gen → RandState → List Nat × V6Gen × RandState
  | 0, st, g => ([], st, g)
  | n + 1, st, g =>
      let (v, st1, g1) := v6step rb portId cidr st g
      let rest := v6take rb portId cidr n st1 g1
      (v :: rest.1, rest.2)

/-! ## Subnet cursor updates (db/api.py: subnet_update_next_auto_assign_ip,
subnet_update_set_full) -/

/-- db/api.py `subnet_update_next_auto_assign_ip`: conditional
`UPDATE quark_subnets SET next_auto_assign_ip = next_auto_assign_ip + 1
WHERE id = ? AND next_auto_assign_ip != -1`, returning the new cursor value
and the matched-row count. -/
def subnet_update_next_auto_assign_ip (n : Int) : Int × Nat :=
  if n = -1 then (n, 0) else (n + 1, 1)

/-- db/api.py `subnet_update_set_full`: conditional
`UPDATE quark_subnets SET next_auto_assign_ip = -1
WHERE id = ? AND next_auto_assign_ip != -1`, returning the new cursor value
and the matched-row count. -/
def subnet_update_set_full (n : Int) : Int × Nat :=
  if n = -1 then (n, 0) else (-1, 1)

/-- One transition of a subnet's `next_auto_assign_ip` column: the only two
writers on the allocation path are the two conditional updates above. -/
inductive CursorStep : Int → Int → Prop where
  | autoInc (n : Int) : CursorStep n (subnet_update_next_auto_assign_ip n).1
  | setFull (n : Int) : CursorStep n (subnet_update_set_full n).1

lemma cursorStep_cases {n m : Int} (h : CursorStep n m) :
    (n = -1 → m = n) ∧ (n ≠ -1 → m = n + 1 ∨ m = -1) := by
  cases h with
  | autoInc =>
      unfold subnet_update_next_auto_assign_ip
      constructor
      · intro h1; simp [h1]
      · intro h1; left; simp [h1]
  | setFull =>
      unfold subnet_update_set_full
      constructor
      · intro h1; simp [h1]
      · intro h1; right; simp [h1]

lemma cursorStep_full_stays {f : Nat → Int}
    (hstep : ∀ k, CursorStep (f k) (f (k + 1))) :
    ∀ i j, i ≤ j → f i = -1 → f j = -1 := by
  intro i j hij hi
  induction j, hij using Nat.le_induction with
  | base => exact hi
  | succ j _ ih => exact ((cursorStep_cases (hstep j)).1 ih).trans ih

/-! ## v6 generator determinism lemmas -/

lemma v6take_beforeSeed_state (rb : Nat → Nat → Nat) (portId cidr n : Nat)
    (g g' : RandState) :
    (v6take rb portId cidr n .beforeSeed g).1 =
      (v6take rb portId cidr n .beforeSeed g').1 := by
  cases n with
  | zero => rfl
  | succ n => rfl

/-- Claim C6: for every (mac, port_id, cidr), two independently created
generate_v6 generators yield identical prefixes of every finite length: the
value list does not depend on the global random-module state at creation,
because rfc3041_ip reseeds from port_id before drawing. -/
theorem claim_C6_generate_v6_deterministic (rb : Nat → Nat → Nat)
    (mac : Option Nat) (portId cidr n : Nat) (g g' : RandState) :
    (v6take rb portId cidr n (generateV6Init mac) g).1 =
      (v6take rb portId cidr n (generateV6Init mac) g').1 := by
  cases mac with
  | none => exact v6take_beforeSeed_state rb portId cidr n g g'
  | some m =>
      cases n with
      | zero => rfl
      | succ n =>
          show rfc2462_ip m cidr :: (v6take rb portId cidr n .beforeSeed g).1 =
            rfc2462_ip m cidr :: (v6take rb portId cidr n .beforeSeed g').1
          rw [v6take_beforeSeed_state rb portId cidr n g g']

/-- Claim C7: when a MAC is present the first value generate_v6 yields is
`(cidr_base + eui64(mac)) XOR 0x0200000000000000`; at
cidr 2001:db8::/64 and mac 52:54:00:12:34:56 this is
2001:db8::5054:ff:fe12:3456 (= 0x20010DB800000000505400FFFE123456),
the modified EUI-64 address with the universal/local bit flipped. -/
theorem claim_C7_first_yield_rfc2462 (rb : Nat → Nat → Nat)
    (portId : Nat) (g : RandState) :
    (∀ mac cidr : Nat,
        (v6take rb portId cidr 1 (generateV6Init (some mac)) g).1 =
          [(cidr + eui64 mac) ^^^ 0x0200000000000000]) ∧
      (v6take rb portId 0x20010DB8000000000000000000000000 1
          (generateV6Init (some 0x525400123456)) g).1 =
        [0x20010DB800000000505400FFFE123456] := by
  constructor
  · intro mac cidr; rfl
  · rfl

/-- Claim C9: under the two conditional cursor updates, every step from a
state with next_auto_assign_ip = -1 leaves the cursor unchanged, every step
from a state with cursor ≠ -1 either increments it by 1 or sets it to -1,
and hence along any trace the cursor stays -1 once it is -1 and is
non-decreasing as long as it has not become -1. -/
theorem claim_C9_cursor_step_monotone (f : Nat → Int)
    (hstep : ∀ k, CursorStep (f k) (f (k + 1))) :
    (∀ k, f k = -1 → f (k + 1) = f k) ∧
      (∀ k, f k ≠ -1 → f (k + 1) = f k + 1 ∨ f (k + 1) = -1) ∧
      (∀ i j, i ≤ j → f i = -1 → f j = -1) ∧
      (∀ i j, i ≤ j → f j ≠ -1 → f i ≤ f j) := by
  refine ⟨fun k => (cursorStep_cases (hstep k)).1,
    fun k => (cursorStep_cases (hstep k)).2,
    cursorStep_full_stays hstep, ?_⟩
  intro i j hij hj
  induction j, hij using Nat.le_induction with
  | base => exact le_refl _
  | succ j hij ih =>
      have hjne : f j ≠ -1 := by
        intro hfull
        exact hj (cursorStep_full_stays hstep j (j + 1) (Nat.le_succ j) hfull)
      have hle : f i ≤ f j := ih hjne
      cases (cursorStep_cases (hstep j)).2 hjne with
      | inl hinc => omega
      | inr hfull => exact absurd hfull hj

/-- Witness for C9 at the concrete constant trace that is already full:
both cursor updates match zero rows there and leave the value -1. -/
theorem claim_C9_witness :
    (∀ k, (fun _ : Nat => (-1 : Int)) k = -1 →
        (fun _ : Nat => (-1 : Int)) (k + 1) = (fun _ : Nat => (-1 : Int)) k) ∧
      (∀ k, (fun _ : Nat => (-1 : Int)) k ≠ -1 →
        (fun _ : Nat => (-1 : Int)) (k + 1) = (fun _ : Nat => (-1 : Int)) k + 1 ∨
          (fun _ : Nat => (-1 : Int)) (k + 1) = -1) ∧
      (∀ i j, i ≤ j → (fun _ : Nat => (-1 : Int)) i = -1 →
        (fun _ : Nat => (-1 : Int)) j = -1) ∧
      (∀ i j, i ≤ j → (fun _ : Nat => (-1 : Int)) j ≠ -1 →
        (fun _ : Nat => (-1 : Int)) i ≤ (fun _ : Nat => (-1 : Int)) j) :=
  claim_C9_cursor_step_monotone (fun _ => -1)
    (fun _ => CursorStep.autoInc (-1))

/-! ## BOTH_REQUIRED strategy (ipam.py: QuarkIpamBOTHREQ.is_strategy_satisfied,
QuarkIpam.allocate_ip_address) -/

/-- The loop body of `QuarkIpamBOTHREQ.is_strategy_satisfied`: walk the
reallocated-ips list carrying the still-needed versions `req` (initially
[4, 6]); a non-None entry removes its version from `req` (Python
`list.remove` raises ValueError, modelled `.error`, when the version is not
in `req`); inside every iteration, if `req` has become empty return True;
falling off the loop returns False. -/
def bothReqGo (req : List Nat) : List (Option IPRow) → Except Unit Bool
  | [] => .ok false
  | a :: rest =>
      match a with
      | none => if req.length = 0 then .ok true else bothReqGo req rest
      | some ip =>
          if ip.version ∈ req then
            if (req.erase ip.version).length = 0 then .ok true
            else bothReqGo (req.erase ip.version) rest
          else .error ()

/-- ipam.py `QuarkIpamBOTHREQ.is_strategy_satisfied` (the
`allocate_complete` argument is never read by this override). -/
def is_strategy_satisfied_BOTHREQ (ips : List (Option IPRow)) : Except Unit Bool :=
  bothReqGo [4, 6] ips

/-- The success control flow of `QuarkIpam.allocate_ip_address` under the
BOTH_REQUIRED strategy: `realloc` is new_addresses after the reallocate
phase, `extra` what the create phase appends. The function returns early
when the strategy is already satisfied, otherwise re-checks after the
create phase and raises IpAddressGenerationFailure (here `.error ()`,
conflated with a ValueError escaping is_strategy_satisfied) when still
unsatisfied. -/
def allocate_ip_address_BOTHREQ (realloc extra : List IPRow) :
    Except Unit (List IPRow) :=
  match is_strategy_satisfied_BOTHREQ (realloc.map some) with
  | .error _ => .error ()
  | .ok true => .ok realloc
  | .ok false =>
      match is_strategy_satisfied_BOTHREQ ((realloc ++ extra).map some) with
      | .error _ => .error ()
      | .ok true => .ok (realloc ++ extra)
      | .ok false => .error ()

lemma bothReqGo_ok_true :
    ∀ (l : List (Option IPRow)) (req : List Nat),
      bothReqGo req l = .ok true →
      ∀ v ∈ req, ∃ ip, some ip ∈ l ∧ ip.version = v := by
  intro l
  induction l with
  | nil => intro req h; simp [bothReqGo] at h
  | cons a rest ih =>
      intro req h v hv
      cases a with
      | none =>
          simp only [bothReqGo] at h
          by_cases hreq : req.length = 0
          · rw [List.length_eq_zero.mp hreq] at hv
            simp at hv
          · rw [if_neg hreq] at h
            obtain ⟨ip, hmem, hver⟩ := ih req h v hv
            exact ⟨ip, List.mem_cons_of_mem _ hmem, hver⟩
      | some ip =>
          simp only [bothReqGo] at h
          by_cases hmem : ip.version ∈ req
          · rw [if_pos hmem] at h
            by_cases hlen : (req.erase ip.version).length = 0
            · have hone : req.length = 1 := by
                have := List.length_erase_of_mem hmem
                have hpos : 0 < req.length := List.length_pos.mpr
                  (List.ne_nil_of_mem hmem)
                omega
              obtain ⟨x, hx⟩ := List.length_eq_one.mp hone
              subst hx
              have hvx : v = x := by simpa using hv
              have hix : ip.version = x := by simpa using hmem
              exact ⟨ip, List.mem_cons_self _ _, by rw [hix, hvx]⟩
            · rw [if_neg hlen] at h
              by_cases hveq : v = ip.version
              · exact ⟨ip, List.mem_cons_self _ _, hveq.symm⟩
              · have hv2 : v ∈ req.erase ip.version :=
                  (List.mem_erase_of_ne hveq).mpr hv
                obtain ⟨ip2, hmem2, hver2⟩ := ih _ h v hv2
                exact ⟨ip2, List.mem_cons_of_mem _ hmem2, hver2⟩
          · rw [if_neg hmem] at h
            cases h

lemma satisfied_BOTHREQ_versions (l : List IPRow)
    (h : is_strategy_satisfied_BOTHREQ (l.map some) = .ok true) :
    (∃ a ∈ l, a.version = 4) ∧ (∃ a ∈ l, a.version = 6) := by
  have hgo : bothReqGo [4, 6] (l.map some) = .ok true := h
  have h4 := bothReqGo_ok_true _ _ hgo 4 (by simp)
  have h6 := bothReqGo_ok_true _ _ hgo 6 (by simp)
  constructor
  · obtain ⟨ip, hmem, hver⟩ := h4
    obtain ⟨b, hb, hbe⟩ := List.mem_map.mp hmem
    exact ⟨b, hb, by rw [Option.some.injEq] at hbe; rw [hbe, hver]⟩
  · obtain ⟨ip, hmem, hver⟩ := h6
    obtain ⟨b, hb, hbe⟩ := List.mem_map.mp hmem
    exact ⟨b, hb, by rw [Option.some.injEq] at hbe; rw [hbe, hver]⟩

/-- Claim C1: every successful return of allocate_ip_address under
BOTH_REQUIRED leaves new_addresses holding at least one v4 and at least
one v6 address (both early and late strategy checks force
is_strategy_satisfied to have emptied the [4, 6] requirements list). -/
theorem claim_C1_bothreq_success_yields_both_versions
    (realloc extra out : List IPRow)
    (h : allocate_ip_address_BOTHREQ realloc extra = .ok out) :
    (∃ a ∈ out, a.version = 4) ∧ (∃ a ∈ out, a.version = 6) := by
  unfold allocate_ip_address_BOTHREQ at h
  cases h1 : is_strategy_satisfied_BOTHREQ (realloc.map some) with
  | error e => rw [h1] at h; cases h
  | ok b =>
      rw [h1] at h
      cases b with
      | true =>
          have hout : realloc = out := by
            simpa using h
          rw [← hout]
          exact satisfied_BOTHREQ_versions realloc h1
      | false =>
          cases h2 : is_strategy_satisfied_BOTHREQ ((realloc ++ extra).map some) with
          | error e => rw [h2] at h; cases h
          | ok b2 =>
              rw [h2] at h
              cases b2 with
              | true =>
                  have hout : realloc ++ extra = out := by simpa using h
                  rw [← hout]
                  exact satisfied_BOTHREQ_versions _ h2
              | false => cases h

/-- Witness for C1: a successful BOTH_REQUIRED allocation whose reallocate
phase produced one v4 and one v6 address. -/
theorem claim_C1_witness :
    (∃ a ∈ [(⟨10, 4, 1, 1, false, none, 0, none⟩ : IPRow),
        ⟨20, 6, 2, 1, false, none, 0, none⟩], a.version = 4) ∧
      (∃ a ∈ [(⟨10, 4, 1, 1, false, none, 0, none⟩ : IPRow),
        ⟨20, 6, 2, 1, false, none, 0, none⟩], a.version = 6) :=
  claim_C1_bothreq_success_yields_both_versions
    [⟨10, 4, 1, 1, false, none, 0, none⟩, ⟨20, 6, 2, 1, false, none, 0, none⟩]
    []
    [⟨10, 4, 1, 1, false, none, 0, none⟩, ⟨20, 6, 2, 1, false, none, 0, none⟩]
    rfl

/-! ## Base-class attempt_to_reallocate_ip (ipam.py: QuarkIpam) -/

/-- The `version` argument of attempt_to_reallocate_ip: callers pass an int
(4 or 6), a list of ints, or nothing. -/
inductive VersionArg where
  | vint (n : Int)
  | vlist (l : List Nat)
deriving DecidableEq, Repr

/-- ipam.py `version = version or [4, 6]`: Python-falsy arguments (None,
0, the empty list) become [4, 6]. -/
def normalizeVersion : Option VersionArg → VersionArg
  | none => .vlist [4, 6]
  | some (.vint n) => if n = 0 then .vlist [4, 6] else .vint n
  | some (.vlist l) => if l.isEmpty then .vlist [4, 6] else .vlist l

/-- The outcome of one iteration of the reallocate retry loop, as far as
its control flow reads it: the limited-row claim update matched nothing
(`claimFailed`, Python `if not result: break`), the re-find by transaction
id returned a validated address (`found`), or the re-find returned nothing
or a database error was caught (`notFoundOrError`, both continue). -/
inductive ReallocIter where
  | claimFailed
  | found (a : IPRow)
  | notFoundOrError
deriving DecidableEq, Repr

/-- The `for retry in xrange(CONF.QUARK.ip_address_retry_max)` loop of
attempt_to_reallocate_ip: return `[updated_address]` on a successful claim
and re-find, break to `return []` when the claim matches no row, and fall
off the loop to `return []` when the retries are exhausted. -/
def reallocLoop (iter : Nat → ReallocIter) : Nat → Nat → List IPRow
  | _, 0 => []
  | k, fuel + 1 =>
      match iter k with
      | .claimFailed => []
      | .found a => [a]
      | .notFoundOrError => reallocLoop iter (k + 1) fuel

/-- ipam.py `QuarkIpam.attempt_to_reallocate_ip`, with the database
outcomes of each retry supplied by `iter`. A bare v6 version defers to the
create path (`return []`); a segment with no subnets raises
IpAddressGenerationFailure; `segmentSubnetIds` is what
`subnet_find(network_id, segment_id)` resolves when consulted. -/
def attempt_to_reallocate_ip (version : Option VersionArg)
    (segment_id : Option Nat) (subnets : List Nat)
    (segmentSubnetIds : List Nat) (iter : Nat → ReallocIter)
    (retryMax : Nat) : Except IpamError (List IPRow) :=
  if normalizeVersion version = .vint 6 then .ok []
  else
    match subnets, segment_id with
    | [], some _ =>
        if segmentSubnetIds.isEmpty then .error .ipAddressGenerationFailure
        else .ok (reallocLoop iter 0 retryMax)
    | _, _ => .ok (reallocLoop iter 0 retryMax)

lemma reallocLoop_length (iter : Nat → ReallocIter) :
    ∀ fuel k, (reallocLoop iter k fuel).length ≤ 1 := by
  intro fuel
  induction fuel with
  | zero => intro k; simp [reallocLoop]
  | succ fuel ih =>
      intro k
      simp only [reallocLoop]
      cases iter k with
      | claimFailed => simp
      | found a => simp
      | notFoundOrError => exact ih (k + 1)

/-- Claim C10: the base-class attempt_to_reallocate_ip returns a list of
length at most one on every non-raising call: a singleton holding the
claimed-and-validated address or the empty list. -/
theorem claim_C10_reallocate_returns_at_most_one (version : Option VersionArg)
    (segment_id : Option Nat) (subnets : List Nat)
    (segmentSubnetIds : List Nat) (iter : Nat → ReallocIter)
    (retryMax : Nat) (l : List IPRow)
    (h : attempt_to_reallocate_ip version segment_id subnets segmentSubnetIds
      iter retryMax = .ok l) :
    l.length ≤ 1 := by
  unfold attempt_to_reallocate_ip at h
  by_cases hv : normalizeVersion version = .vint 6
  · rw [if_pos hv] at h
    cases h
    simp
  · rw [if_neg hv] at h
    cases subnets with
    | nil =>
        cases segment_id with
        | some seg =>
            have h1 : (if segmentSubnetIds.isEmpty = true then
                  (Except.error IpamError.ipAddressGenerationFailure :
                    Except IpamError (List IPRow))
                else .ok (reallocLoop iter 0 retryMax)) = .ok l := h
            by_cases hseg : segmentSubnetIds.isEmpty = true
            · rw [if_pos hseg] at h1; cases h1
            · rw [if_neg hseg] at h1
              cases h1
              exact reallocLoop_length iter retryMax 0
        | none =>
            have h1 : Except.ok (reallocLoop iter 0 retryMax) =
                (Except.ok l : Except IpamError (List IPRow)) := h
            cases h1
            exact reallocLoop_length iter retryMax 0
    | cons s rest =>
        have h1 : Except.ok (reallocLoop iter 0 retryMax) =
            (Except.ok l : Except IpamError (List IPRow)) := h
        cases h1
        exact reallocLoop_length iter retryMax 0

/-- Witness for C10: a call whose first claim matches no reusable row
returns the empty list. -/
theorem claim_C10_witness : ([] : List IPRow).length ≤ 1 :=
  claim_C10_reallocate_returns_at_most_one none none [] []
    (fun _ => .claimFailed) 20 [] rfl

/-! ## attempt_to_reallocate_ip claim filters (ipam.py lines 355-365,
db/api.py: ip_address_reallocate, _model_query) -/

/-- The `ip_kwargs` dict attempt_to_reallocate_ip hands to
ip_address_reallocate, one optional field per possible key. `none` stands
for an absent key (or a None value, which _model_query skips). -/
structure IpReallocFilters where
  network_id : Nat
  reuse_after : Nat
  deallocated : Option Bool
  ip_address : Option Int
  version : List Nat
  subnet_id : Option (List Nat)
deriving DecidableEq, Repr

/-- ipam.py lines 355-365: build `ip_kwargs` with network_id, reuse_after,
deallocated=True, ip_address and version; `if ip_address: del
ip_kwargs["deallocated"]`; `if sub_ids: ip_kwargs["subnet_id"] = sub_ids`. -/
def reallocIpFilters (net_id reuse_after : Nat) (ip_address : Option Int)
    (version : List Nat) (sub_ids : List Nat) : IpReallocFilters :=
  let base : IpReallocFilters :=
    { network_id := net_id, reuse_after := reuse_after, deallocated := some true,
      ip_address := ip_address, version := version, subnet_id := none }
  let afterIp : IpReallocFilters :=
    if ip_address.isSome then { base with deallocated := none } else base
  if sub_ids.isEmpty then afterIp else { afterIp with subnet_id := some sub_ids }

/-- db/api.py `_model_query` on the IPAddress model for the keys
ip_address_reallocate receives: network_id and version are `in_` filters
(over the listified singleton for network_id), deallocated an equality
filter when present, reuse_after the time filter
`deallocated_at <= utcnow() - reuse_after` (NULL fails the comparison),
ip_address an `address in [value]` filter, subnet_id an `in_` filter. The
context is elevated (admin), so no tenant filter is injected. -/
def ipRowMatches (f : IpReallocFilters) (now : Int) (r : IPRow) : Bool :=
  r.network_id == f.network_id &&
    (match r.deallocated_at with
     | some t => decide (t ≤ now - (f.reuse_after : Int))
     | none => false) &&
    (match f.deallocated with
     | some b => r.deallocated == b
     | none => true) &&
    f.version.contains r.version &&
    (match f.subnet_id with
     | some l => l.contains r.subnet_id
     | none => true) &&
    (match f.ip_address with
     | some a => r.address == a
     | none => true)

/-- Counterexample to C4 as stated: with an explicitly requested ip the
claim's filter set no longer contains `deallocated=true` (the key is
deleted), and a row that is NOT deallocated matches every remaining
filter. -/
theorem claim_C4_counterexample :
    (reallocIpFilters 1 0 (some 5) [4] []).deallocated = none ∧
      ipRowMatches (reallocIpFilters 1 0 (some 5) [4] []) 100
        ⟨5, 4, 9, 1, false, some 0, 7, none⟩ = true ∧
      (⟨5, 4, 9, 1, false, some 0, 7, none⟩ : IPRow).deallocated = false := by
  refine ⟨rfl, rfl, rfl⟩

/-- Claim C4 amended: the claim filters on network_id, reuse_after, the
requested versions, the subnet-id set when given and the explicit address
when given; it filters on deallocated=true exactly when no explicit
address was requested (the deallocated filter is deleted otherwise). -/
theorem claim_C4_amended_reallocate_claim_filters (net_id reuse_after : Nat)
    (ip_address : Option Int) (version : List Nat) (sub_ids : List Nat)
    (now : Int) (r : IPRow) :
    ipRowMatches (reallocIpFilters net_id reuse_after ip_address version sub_ids)
        now r = true ↔
      (r.network_id = net_id ∧
        (∃ t, r.deallocated_at = some t ∧ t ≤ now - (reuse_after : Int)) ∧
        r.version ∈ version ∧
        (sub_ids = [] ∨ r.subnet_id ∈ sub_ids) ∧
        (ip_address = none ∨ ip_address = some r.address) ∧
        (ip_address.isSome = true ∨ r.deallocated = true)) := by
  unfold reallocIpFilters ipRowMatches
  cases ip_address with
  | none =>
      cases hsub : sub_ids with
      | nil =>
          cases r.deallocated_at with
          | none => simp
          | some t => simp; tauto
      | cons s rest =>
          cases r.deallocated_at with
          | none => simp
          | some t => simp; tauto
  | some a =>
      cases hsub : sub_ids with
      | nil =>
          cases r.deallocated_at with
          | none => simp
          | some t => simp; tauto
      | cons s rest =>
          cases r.deallocated_at with
          | none => simp
          | some t => simp; tauto

/-- Witness for C4's amended claim at a concrete deallocated row matching a
claim with no explicit address. -/
theorem claim_C4_witness :
    ipRowMatches (reallocIpFilters 1 0 none [4] []) 100
        ⟨5, 4, 9, 1, true, some 0, 7, none⟩ = true ↔
      ((⟨5, 4, 9, 1, true, some 0, 7, none⟩ : IPRow).network_id = 1 ∧
        (∃ t, (⟨5, 4, 9, 1, true, some 0, 7, none⟩ : IPRow).deallocated_at =
            some t ∧ t ≤ 100 - ((0 : Nat) : Int)) ∧
        (⟨5, 4, 9, 1, true, some 0, 7, none⟩ : IPRow).version ∈ [4] ∧
        (([] : List Nat) = [] ∨
          (⟨5, 4, 9, 1, true, some 0, 7, none⟩ : IPRow).subnet_id ∈ ([] : List Nat)) ∧
        ((none : Option Int) = none ∨ (none : Option Int) =
          some (⟨5, 4, 9, 1, true, some 0, 7, none⟩ : IPRow).address) ∧
        ((none : Option Int).isSome = true ∨
          (⟨5, 4, 9, 1, true, some 0, 7, none⟩ : IPRow).deallocated = true)) :=
  claim_C4_amended_reallocate_claim_filters 1 0 none [4] [] 100
    ⟨5, 4, 9, 1, true, some 0, 7, none⟩

/-! ## MAC reuse phase (ipam.py: allocate_mac_address step 1; db/api.py:
mac_address_reallocate, mac_address_reallocate_find) -/

/-- A MacAddress row (quark_mac_addresses) with the do_not_use flag of its
joined mac_address_range (`none` when the row has no range). -/
structure MacRow where
  address : Nat
  deallocated : Bool
  deallocated_at : Option Int
  transaction_id : Option Nat
  range_do_not_use : Option Bool
deriving DecidableEq, Repr

/-- db/api.py `_model_query` on MacAddress for allocate_mac_address's
filter_kwargs `{reuse_after, deallocated: True, address: mac_address}`:
`deallocated_at <= utcnow() - reuse_after` (a NULL deallocated_at fails),
equality on deallocated, and equality on address when a MAC was requested
(a None value is skipped). The context is elevated, so no tenant filter. -/
def macReuseMatches (now reuse : Int) (macFilter : Option Nat) (r : MacRow) : Bool :=
  r.deallocated == true &&
    (match r.deallocated_at with
     | some t => decide (t ≤ now - reuse)
     | none => false) &&
    (match macFilter with
     | some a => r.address == a
     | none => true)

/-- The row values mac_address_reallocate writes on the claimed row:
`{deallocated: False, deallocated_at: None, transaction_id: T}`. -/
def macClaimUpdate (tid : Nat) (r : MacRow) : MacRow :=
  { r with
    deallocated := false
    deallocated_at := none
    transaction_id := some tid }

/-- The `UPDATE ... LIMIT 1` claim primitive (sqlalchemy_adapter's
mysql_limit=1 bulk update): update the first matching row and report the
affected-row count. -/
def updateLimitOne (p : α → Bool) (upd : α → α) : List α → List α × Nat
  | [] => ([], 0)
  | r :: rs =>
      if p r then (upd r :: rs, 1)
      else
        let (rs1, n) := updateLimitOne p upd rs
        (r :: rs1, n)

/-- db/api.py `mac_address_reallocate`: claim one matching MAC row for
transaction `tid`, returning the updated table and the row count. -/
def mac_address_reallocate (tid : Nat) (now reuse : Int)
    (macFilter : Option Nat) (rows : List MacRow) : List MacRow × Nat :=
  updateLimitOne (macReuseMatches now reuse macFilter) (macClaimUpdate tid) rows

/-- db/api.py `mac_address_find(transaction_id=tid, scope=ONE)`. -/
def mac_address_find_by_txn (tid : Nat) (rows : List MacRow) : Option MacRow :=
  rows.find? (fun r => r.transaction_id == some tid)

/-- db/api.py `mac_address_reallocate_find`: re-find the claimed MAC by
transaction id; when the MAC sits in a do_not_use range, delete it and
return nothing (the RM11043 hack), else return it. The returned list is
the table after the possible delete. -/
def mac_address_reallocate_find (tid : Nat) (rows : List MacRow) :
    Option MacRow × List MacRow :=
  match mac_address_find_by_txn tid rows with
  | none => (none, rows)
  | some m =>
      if m.range_do_not_use == some true then (none, rows.erase m)
      else (some m, rows)

/-- What one iteration of allocate_mac_address's reuse loop does with the
claim outcome: return the re-found MAC, break out of the reuse loop
(claim matched nothing), or fall through to the next retry. -/
inductive MacAttemptOutcome where
  | returned (m : MacRow)
  | breakLoop
  | continueLoop
deriving DecidableEq, Repr

/-- One attempt of the reuse phase of ipam.py `allocate_mac_address`
(step 1 of 3): claim with a fresh transaction `tid`; `if not result:
break`; re-find by `tid` and return the row if one comes back, else
continue with the next retry. -/
def macReuseAttempt (tid : Nat) (now reuse : Int) (macFilter : Option Nat)
    (rows : List MacRow) : MacAttemptOutcome × List MacRow :=
  let (rows1, n) := mac_address_reallocate tid now reuse macFilter rows
  if n = 0 then (.breakLoop, rows1)
  else
    match mac_address_reallocate_find tid rows1 with
    | (some m, rows2) => (.returned m, rows2)
    | (none, rows2) => (.continueLoop, rows2)

/-- Counterexample to C3 as stated: a deallocated MAC sitting in a
do_not_use range. The claim update reports one row affected, yet the
attempt does not return the row re-found by the transaction id: the
re-find deletes it and the loop continues. -/
theorem claim_C3_counterexample :
    (mac_address_reallocate 7 10 0 none
        [⟨1, true, some 0, none, some true⟩]).2 = 1 ∧
      (macReuseAttempt 7 10 0 none
        [⟨1, true, some 0, none, some true⟩]).1 = .continueLoop := by
  refine ⟨rfl, rfl⟩

/-- Claim C3 amended: whenever the claim update reports one row affected
and the re-find by the fresh transaction id yields a MAC (the claimed row
is not in a do_not_use range), that MAC is returned as the result of the
attempt. -/
theorem claim_C3_amended_reuse_claim_returns_refound_mac (tid : Nat)
    (now reuse : Int) (macFilter : Option Nat) (rows rows2 : List MacRow)
    (m : MacRow)
    (h1 : (mac_address_reallocate tid now reuse macFilter rows).2 = 1)
    (h2 : mac_address_reallocate_find tid
        (mac_address_reallocate tid now reuse macFilter rows).1 =
      (some m, rows2)) :
    (macReuseAttempt tid now reuse macFilter rows).1 = .returned m := by
  unfold macReuseAttempt
  rcases he : mac_address_reallocate tid now reuse macFilter rows with ⟨rows1, n⟩
  rw [he] at h1 h2
  simp only at h1 h2
  subst h1
  simp only [he]
  rw [if_neg (by omega : ¬(1 : Nat) = 0)]
  rw [h2]

/-- Witness for C3's amended claim: a reusable MAC in an ordinary range is
claimed, re-found by the transaction id and returned. -/
theorem claim_C3_witness :
    (macReuseAttempt 7 10 0 none [⟨1, true, some 0, none, some false⟩]).1 =
      .returned ⟨1, false, none, some 7, some false⟩ :=
  claim_C3_amended_reuse_claim_returns_refound_mac 7 10 0 none
    [⟨1, true, some 0, none, some false⟩]
    [⟨1, false, none, some 7, some false⟩]
    ⟨1, false, none, some 7, some false⟩ (by decide) (by decide)

/-! ## Create path (ipam.py: _allocate_from_subnet, _allocate_from_v6_subnet,
_try_allocate_ip_address) -/

/-- One excluded cidr of a subnet's IP policy as an integer interval
(db/api.py ip_policy_create stores first_ip/last_ip per IPPolicyCIDR). -/
structure IPRange where
  first : Int
  last : Int
deriving DecidableEq, Repr

/-- Membership of an address in one excluded cidr. -/
def ipRangeContains (rg : IPRange) (x : Int) : Bool :=
  decide (rg.first ≤ x) && decide (x ≤ rg.last)

/-- netaddr `x in ip_policy_cidrs` over the policy's excluded cidrs. The
IPSet-building `IPPolicy.get_ip_policy_cidrs` lives in quark/db/models.py,
which is not among the source files; per the spec (section 4.2) it returns
a set-like structure over the policy's excluded CIDRs supporting
membership, modelled here as a list of intervals, or None. -/
def inPolicySet (cidrs : List IPRange) (x : Int) : Bool :=
  cidrs.any (fun rg => ipRangeContains rg x)

/-- Python truthiness of the value `get_ip_policy_cidrs` returned: None and
an empty IPSet are falsy (`if ip_policy_cidrs and ...`). -/
def policyTruthy : Option (List IPRange) → Bool
  | none => false
  | some cidrs => !cidrs.isEmpty

/-- Membership in the policy with None treated as the empty set. -/
def inPolicyOpt (p : Option (List IPRange)) (x : Int) : Bool :=
  inPolicySet (p.getD []) x

/-- ipam.py `QuarkIpam._allocate_from_subnet`: pick the next candidate
(the explicit ip, or `next_auto_assign_ip - 1` since the selector already
advanced the cursor, or `last_ip` when the subnet was just marked full);
raise IPAddressPolicyRetryableFailure when the candidate is in a truthy
policy and no explicit ip was given; insert the row (`insertOk` is whether
the INSERT succeeds); on insert failure raise IpAddressInUse for an
explicit ip and IPAddressRetryableFailure otherwise. -/
def allocate_from_subnet (net_id : Nat) (subnet : SubnetRow)
    (ip_policy_cidrs : Option (List IPRange)) (ip_address : Option Int)
    (tenant_id : Nat) (insertOk : Bool) : Except IpamError IPRow :=
  let next_ip : Int :=
    match ip_address with
    | some ip => ip
    | none =>
        if subnet.next_auto_assign_ip ≠ -1 then subnet.next_auto_assign_ip - 1
        else subnet.last_ip
  if policyTruthy ip_policy_cidrs && inPolicyOpt ip_policy_cidrs next_ip &&
      ip_address.isNone then
    .error .ipAddressPolicyRetryableFailure
  else if insertOk then
    .ok { address := next_ip, version := subnet.ip_version,
          subnet_id := subnet.id, network_id := net_id, deallocated := false,
          deallocated_at := none, used_by_tenant_id := tenant_id,
          transaction_id := none }
  else
    match ip_address with
    | some _ => .error .ipAddressInUse
    | none => .error .ipAddressRetryableFailure

/-- The v6 generator loop of `_allocate_from_v6_subnet`: up to
`v6_allocation_attempts` candidates (one extra iteration raises
IpAddressGenerationFailure); skip candidates in a non-None policy; if a
deallocated row for the candidate exists under the find's filters
(`findDealloc`), update it in place and return it (its address equals the
candidate by the `address in [candidate]` filter); else insert a new row,
continuing with the next candidate on a duplicate-entry conflict
(`insertOk`). -/
def v6AllocGo (rb : Nat → Nat → Nat) (portId : Nat) (net_id : Nat)
    (subnet : SubnetRow) (ip_policy_cidrs : Option (List IPRange))
    (tenant_id : Nat) (findDealloc : Int → Bool) (insertOk : Int → Bool) :
    Nat → V6Gen → RandState → Except IpamError IPRow
  | 0, _, _ => .error .ipAddressGenerationFailure
  | fuel + 1, st, g =>
      let (candN, st1, g1) := v6step rb portId subnet.cidr_base st g
      let cand : Int := candN
      if ip_policy_cidrs.isSome && inPolicyOpt ip_policy_cidrs cand then
        v6AllocGo rb portId net_id subnet ip_policy_cidrs tenant_id
          findDealloc insertOk fuel st1 g1
      else if findDealloc cand then
        .ok { address := cand, version := subnet.ip_version,
              subnet_id := subnet.id, network_id := net_id,
              deallocated := false, deallocated_at := none,
              used_by_tenant_id := tenant_id, transaction_id := none }
      else if insertOk cand then
        .ok { address := cand, version := subnet.ip_version,
              subnet_id := subnet.id, network_id := net_id,
              deallocated := false, deallocated_at := none,
              used_by_tenant_id := tenant_id, transaction_id := none }
      else
        v6AllocGo rb portId net_id subnet ip_policy_cidrs tenant_id
          findDealloc insertOk fuel st1 g1

/-- ipam.py `QuarkIpam._allocate_from_v6_subnet`: an explicit ip defers to
the standard (v4) allocation; otherwise iterate generate_v6 as above. -/
def allocate_from_v6_subnet (rb : Nat → Nat → Nat) (portId : Nat)
    (net_id : Nat) (subnet : SubnetRow)
    (ip_policy_cidrs : Option (List IPRange)) (ip_address : Option Int)
    (mac : Option Nat) (tenant_id : Nat) (findDealloc : Int → Bool)
    (insertOk : Int → Bool) (insertOkExplicit : Bool) (attempts : Nat)
    (g0 : RandState) : Except IpamError IPRow :=
  match ip_address with
  | some _ =>
      allocate_from_subnet net_id subnet ip_policy_cidrs ip_address tenant_id
        insertOkExplicit
  | none =>
      v6AllocGo rb portId net_id subnet ip_policy_cidrs tenant_id findDealloc
        insertOk attempts (generateV6Init mac) g0

/-- Counterexample to C2 as stated: an explicitly requested ip bypasses the
policy check of _allocate_from_subnet (the `and not ip_address` conjunct),
so the returned address lies inside the subnet's policy cidrs. -/
theorem claim_C2_counterexample :
    allocate_from_subnet 1 ⟨1, 1, none, 4, 0, 0, 7, 3, false⟩
        (some [⟨5, 7⟩]) (some 6) 0 true =
      .ok ⟨6, 4, 1, 1, false, none, 0, none⟩ ∧
      inPolicyOpt (some [⟨5, 7⟩])
        ((⟨6, 4, 1, 1, false, none, 0, none⟩ : IPRow).address) = true := by
  refine ⟨rfl, rfl⟩

lemma inPolicyOpt_false_of_check_off (p : Option (List IPRange)) (x : Int)
    (h : (policyTruthy p && inPolicySet (p.getD []) x) = false) :
    inPolicyOpt p x = false := by
  cases p with
  | none => simp [inPolicyOpt, inPolicySet]
  | some cidrs =>
      cases cidrs with
      | nil => simp [inPolicyOpt, inPolicySet]
      | cons c rest =>
          simp only [policyTruthy, List.isEmpty_cons, Bool.not_false,
            Bool.true_and, Option.getD_some] at h
          simpa [inPolicyOpt] using h

lemma v6AllocGo_policy_free (rb : Nat → Nat → Nat) (portId net_id : Nat)
    (subnet : SubnetRow) (p : Option (List IPRange)) (tenant_id : Nat)
    (findDealloc insertOk : Int → Bool) :
    ∀ (fuel : Nat) (st : V6Gen) (g : RandState) (r : IPRow),
      v6AllocGo rb portId net_id subnet p tenant_id findDealloc insertOk
          fuel st g = .ok r →
      inPolicyOpt p r.address = false := by
  intro fuel
  induction fuel with
  | zero => intro st g r h; cases h
  | succ fuel ih =>
      intro st g r h
      simp only [v6AllocGo] at h
      by_cases hpol : (p.isSome && inPolicyOpt p
          ((v6step rb portId subnet.cidr_base st g).1 : Int)) = true
      · rw [if_pos hpol] at h
        exact ih _ _ _ h
      · rw [if_neg hpol] at h
        have hfree : inPolicyOpt p
            ((v6step rb portId subnet.cidr_base st g).1 : Int) = false := by
          cases p with
          | none => simp [inPolicyOpt, inPolicySet]
          | some cidrs =>
              simp only [Option.isSome_some, Bool.true_and] at hpol
              simpa using hpol
        by_cases hfind : findDealloc ((v6step rb portId subnet.cidr_base st g).1 : Int) = true
        · rw [if_pos hfind] at h
          cases h
          exact hfree
        · rw [if_neg hfind] at h
          by_cases hins : insertOk ((v6step rb portId subnet.cidr_base st g).1 : Int) = true
          · rw [if_pos hins] at h
            cases h
            exact hfree
          · rw [if_neg hins] at h
            exact ih _ _ _ h

lemma allocate_from_subnet_auto_policy_free (net_id : Nat)
    (subnet : SubnetRow) (p : Option (List IPRange)) (tenant_id : Nat)
    (insertOk : Bool) (r : IPRow)
    (h : allocate_from_subnet net_id subnet p none tenant_id insertOk = .ok r) :
    inPolicyOpt p r.address = false := by
  unfold allocate_from_subnet at h
  by_cases hpol : (policyTruthy p &&
      inPolicyOpt p (if subnet.next_auto_assign_ip ≠ -1 then
        subnet.next_auto_assign_ip - 1 else subnet.last_ip) &&
      (none : Option Int).isNone) = true
  · rw [if_pos hpol] at h
    cases h
  · rw [if_neg hpol] at h
    by_cases hins : insertOk = true
    · rw [if_pos hins] at h
      cases h
      simp only [Option.isNone_none, Bool.and_true] at hpol
      exact inPolicyOpt_false_of_check_off p _ (by
        cases hb : (policyTruthy p && inPolicyOpt p
            (if subnet.next_auto_assign_ip ≠ -1 then
              subnet.next_auto_assign_ip - 1 else subnet.last_ip)) with
        | false =>
            simpa [inPolicyOpt] using hb
        | true => exact absurd hb hpol)
    · rw [if_neg hins] at h
      cases h

/-- Claim C2 amended: every IPAddress the create path returns on a call
without an explicitly requested ip_address lies outside its subnet's IP
policy cidrs (the v4 path raises IPAddressPolicyRetryableFailure on a
policy hit, the v6 generator loop skips policy-covered candidates); an
explicitly requested ip_address bypasses the check. -/
theorem claim_C2_amended_create_path_policy_compliance :
    (∀ (net_id : Nat) (subnet : SubnetRow) (p : Option (List IPRange))
        (tenant_id : Nat) (insertOk : Bool) (r : IPRow),
      allocate_from_subnet net_id subnet p none tenant_id insertOk = .ok r →
      inPolicyOpt p r.address = false) ∧
      (∀ (rb : Nat → Nat → Nat) (portId net_id : Nat) (subnet : SubnetRow)
          (p : Option (List IPRange)) (mac : Option Nat) (tenant_id : Nat)
          (findDealloc insertOk : Int → Bool) (insertOkExplicit : Bool)
          (attempts : Nat) (g0 : RandState) (r : IPRow),
        allocate_from_v6_subnet rb portId net_id subnet p none mac tenant_id
            findDealloc insertOk insertOkExplicit attempts g0 = .ok r →
        inPolicyOpt p r.address = false) := by
  constructor
  · exact allocate_from_subnet_auto_policy_free
  · intro rb portId net_id subnet p mac tenant_id findDealloc insertOk
      insertOkExplicit attempts g0 r h
    exact v6AllocGo_policy_free rb portId net_id subnet p tenant_id
      findDealloc insertOk attempts (generateV6Init mac) g0 r h

/-- Witness for C2's amended claim: a v4 auto-allocation next to a policy
hole and a v6 SLAAC allocation under an empty policy, both policy-free. -/
theorem claim_C2_witness :
    inPolicyOpt (some [⟨5, 7⟩])
        ((⟨2, 4, 1, 1, false, none, 0, none⟩ : IPRow).address) = false ∧
      inPolicyOpt none
        ((⟨(0x525400FFFE123456 ^^^ 0x0200000000000000 : Nat), 6, 1, 1, false,
          none, 0, none⟩ : IPRow).address) = false :=
  ⟨claim_C2_amended_create_path_policy_compliance.1 1
      ⟨1, 1, none, 4, 0, 0, 7, 3, false⟩ (some [⟨5, 7⟩]) 0 true
      ⟨2, 4, 1, 1, false, none, 0, none⟩ rfl,
    claim_C2_amended_create_path_policy_compliance.2 (fun _ _ => 0) 0 1
      ⟨1, 1, none, 6, 0, 0, 7, 3, false⟩ none (some 0x525400123456) 0
      (fun _ => false) (fun _ => true) true 10 ⟨0, 0⟩
      ⟨(0x525400FFFE123456 ^^^ 0x0200000000000000 : Nat), 6, 1, 1, false,
        none, 0, none⟩ rfl⟩

/-- Whether `except q_exc.IPAddressRetryableFailure` catches an error.
Modelled from the spec for the subclass case: quark/exceptions.py is not
among the source files, and per spec section 7 the policy failure is a
retryable kind caught inside the engine. -/
def isRetryable : IpamError → Bool
  | .ipAddressRetryableFailure => true
  | .ipAddressPolicyRetryableFailure => true
  | _ => false

/-- The retry loop of ipam.py `_try_allocate_ip_address` starting at
attempt `k` with `fuel` attempts left: `f k` is what the k-th body
(subnet choice plus _allocate_ips_from_subnets) does. A retryable failure
is caught and the loop continues; success breaks; any other error
propagates; an exhausted loop falls through and returns normally. -/
def tryAllocateIpGo (f : Nat → Except IpamError Unit) :
    Nat → Nat → Except IpamError Unit
  | _, 0 => .ok ()
  | k, fuel + 1 =>
      match f k with
      | .ok _ => .ok ()
      | .error e =>
          if isRetryable e then tryAllocateIpGo f (k + 1) fuel else .error e

/-- ipam.py `_try_allocate_ip_address`:
`for retry in xrange(CONF.QUARK.ip_address_retry_max)` from attempt 0. -/
def tryAllocateIp (f : Nat → Except IpamError Unit) (retryMax : Nat) :
    Except IpamError Unit :=
  tryAllocateIpGo f 0 retryMax

lemma tryAllocateIpGo_all_retryable (f : Nat → Except IpamError Unit) :
    ∀ (fuel k : Nat),
      (∀ j, j < fuel → f (k + j) = .error .ipAddressRetryableFailure) →
      tryAllocateIpGo f k fuel = .ok () := by
  intro fuel
  induction fuel with
  | zero => intro k _; rfl
  | succ fuel ih =>
      intro k hall
      have h0 : f k = .error .ipAddressRetryableFailure := by
        simpa using hall 0 (Nat.succ_pos fuel)
      simp only [tryAllocateIpGo, h0, isRetryable]
      exact ih (k + 1) (fun j hj => by
        have := hall (j + 1) (by omega)
        simpa [Nat.add_assoc, Nat.add_comm 1 j] using this)

/-- Claim C8: when the IPAddress insert of _allocate_from_subnet fails the
raised error is IpAddressInUse exactly when an explicit ip_address was
supplied and IPAddressRetryableFailure otherwise (an auto allocation can
alternatively fail earlier with the policy retryable error, which precedes
the insert); the _try_allocate_ip_address loop catches retryable failures
and retries up to ip_address_retry_max attempts, falling through on
exhaustion, while IpAddressInUse propagates to the caller. -/
theorem claim_C8_insert_failure_error_kinds_and_retry :
    (∀ (net_id : Nat) (subnet : SubnetRow) (p : Option (List IPRange))
        (ip : Int) (tenant_id : Nat),
      allocate_from_subnet net_id subnet p (some ip) tenant_id false =
        .error .ipAddressInUse) ∧
      (∀ (net_id : Nat) (subnet : SubnetRow) (p : Option (List IPRange))
          (tenant_id : Nat),
        allocate_from_subnet net_id subnet p none tenant_id false =
            .error .ipAddressPolicyRetryableFailure ∨
          allocate_from_subnet net_id subnet p none tenant_id false =
            .error .ipAddressRetryableFailure) ∧
      (∀ (f : Nat → Except IpamError Unit) (n : Nat), 0 < n →
        f 0 = .error .ipAddressInUse →
        tryAllocateIp f n = .error .ipAddressInUse) ∧
      (∀ (f : Nat → Except IpamError Unit) (n : Nat),
        (∀ k, k < n → f k = .error .ipAddressRetryableFailure) →
        tryAllocateIp f n = .ok ()) := by
  refine ⟨?_, ?_, ?_, ?_⟩
  · intro net_id subnet p ip tenant_id
    unfold allocate_from_subnet
    simp
  · intro net_id subnet p tenant_id
    unfold allocate_from_subnet
    by_cases hpol : (policyTruthy p &&
        inPolicyOpt p (if subnet.next_auto_assign_ip ≠ -1 then
          subnet.next_auto_assign_ip - 1 else subnet.last_ip) &&
        (none : Option Int).isNone) = true
    · left; rw [if_pos hpol]
    · right; rw [if_neg hpol]; rfl
  · intro f n hn h0
    cases n with
    | zero => omega
    | succ n =>
        unfold tryAllocateIp
        simp only [tryAllocateIpGo, h0, isRetryable]
        rfl
  · intro f n hall
    exact tryAllocateIpGo_all_retryable f n 0 (fun j hj => by
      simpa using hall j hj)

/-- Witness for C8 at concrete inputs: an explicit-ip insert conflict
surfaces as IpAddressInUse through the retry loop's body, and a loop whose
20 attempts all fail retryably returns normally after exhausting them. -/
theorem claim_C8_witness :
    allocate_from_subnet 1 ⟨1, 1, none, 4, 0, 0, 7, 3, false⟩ none
        (some 5) 0 false = .error .ipAddressInUse ∧
      tryAllocateIp (fun _ => .error .ipAddressInUse) 20 =
        .error .ipAddressInUse ∧
      tryAllocateIp (fun _ => .error .ipAddressRetryableFailure) 20 = .ok () :=
  ⟨claim_C8_insert_failure_error_kinds_and_retry.1 1
      ⟨1, 1, none, 4, 0, 0, 7, 3, false⟩ none 5 0,
    claim_C8_insert_failure_error_kinds_and_retry.2.2.1
      (fun _ => .error .ipAddressInUse) 20 (by omega) rfl,
    claim_C8_insert_failure_error_kinds_and_retry.2.2.2
      (fun _ => .error .ipAddressRetryableFailure) 20 (fun k _ => rfl)⟩

/-! ## Subnet selector ordering (db/api.py: subnet_find_ordered_by_most_full) -/

/-- The ORDER BY key of subnet_find_ordered_by_most_full as a relation on
(subnet, allocated-count) pairs: `asc(ip_version)` first, then
`asc((last_ip - first_ip) - count)` (residual capacity, most full first).
The query orders by nothing else. -/
def subnetLE (a b : SubnetRow × Nat) : Bool :=
  decide (a.1.ip_version < b.1.ip_version) ||
    (a.1.ip_version == b.1.ip_version &&
      decide ((a.1.last_ip - a.1.first_ip) - (a.2 : Int) ≤
        (b.1.last_ip - b.1.first_ip) - (b.2 : Int)))

/-- The ORDER BY relation as a Prop. -/
def SubnetOrd (a b : SubnetRow × Nat) : Prop := subnetLE a b = true

instance instDecSubnetOrd : DecidableRel SubnetOrd := fun a b =>
  inferInstanceAs (Decidable (subnetLE a b = true))

instance instTotalSubnetOrd : IsTotal (SubnetRow × Nat) SubnetOrd :=
  ⟨by
    intro a b
    simp only [SubnetOrd, subnetLE, Bool.or_eq_true, Bool.and_eq_true,
      decide_eq_true_eq, beq_iff_eq]
    omega⟩

instance instTransSubnetOrd : IsTrans (SubnetRow × Nat) SubnetOrd :=
  ⟨by
    intro a b c hab hbc
    simp only [SubnetOrd, subnetLE, Bool.or_eq_true, Bool.and_eq_true,
      decide_eq_true_eq, beq_iff_eq] at hab hbc ⊢
    omega⟩

/-- db/api.py `subnet_find_ordered_by_most_full`: each input pair carries a
subnet row and its outer-joined `count(IPAddress.address)`; filter
`do_not_use = False`, `network_id = net_id`, the optional `ip_version`,
the optional truthy `segment_id`, `next_auto_assign_ip != -1` and the
optional truthy `subnet_id` set; order by the two ORDER BY keys, ties left
in the underlying order (the query states no further key). -/
def subnet_find_ordered_by_most_full (net_id : Nat) (ip_version : Option Nat)
    (segment_id : Option Nat) (subnet_ids : Option (List Nat))
    (rows : List (SubnetRow × Nat)) : List (SubnetRow × Nat) :=
  let filtered := rows.filter (fun pr =>
    !pr.1.do_not_use &&
    pr.1.network_id == net_id &&
    (match ip_version with
     | some v => pr.1.ip_version == v
     | none => true) &&
    (match segment_id with
     | some s => pr.1.segment_id == some s
     | none => true) &&
    !(pr.1.next_auto_assign_ip == -1) &&
    (match subnet_ids with
     | some (i :: rest) => (i :: rest).contains pr.1.id
     | _ => true))
  filtered.insertionSort SubnetOrd

/-- Counterexample to C5 as stated: two candidate subnets with equal
ip_version and equal residual capacity but different ids come back in
whichever relative order the underlying row set presents them — both
orders are produced, so no tie-break by a fixed ordering on subnet id
exists. -/
theorem claim_C5_counterexample :
    subnet_find_ordered_by_most_full 1 none none none
        [(⟨2, 1, none, 4, 0, 0, 7, 3, false⟩, 0),
          (⟨1, 1, none, 4, 0, 0, 7, 3, false⟩, 0)] =
      [(⟨2, 1, none, 4, 0, 0, 7, 3, false⟩, 0),
        (⟨1, 1, none, 4, 0, 0, 7, 3, false⟩, 0)] ∧
      subnet_find_ordered_by_most_full 1 none none none
        [(⟨1, 1, none, 4, 0, 0, 7, 3, false⟩, 0),
          (⟨2, 1, none, 4, 0, 0, 7, 3, false⟩, 0)] =
      [(⟨1, 1, none, 4, 0, 0, 7, 3, false⟩, 0),
        (⟨2, 1, none, 4, 0, 0, 7, 3, false⟩, 0)] ∧
      subnetLE (⟨1, 1, none, 4, 0, 0, 7, 3, false⟩, 0)
        (⟨2, 1, none, 4, 0, 0, 7, 3, false⟩, 0) = true ∧
      subnetLE (⟨2, 1, none, 4, 0, 0, 7, 3, false⟩, 0)
        (⟨1, 1, none, 4, 0, 0, 7, 3, false⟩, 0) = true ∧
      (1 : Nat) ≠ (2 : Nat) := by
  refine ⟨by decide, by decide, by decide, by decide, by decide⟩

/-- Claim C5 amended: the candidate list the subnet selector consults is
ordered by ip_version ascending, then by residual capacity
`(last_ip - first_ip) - count` ascending (most full first); the query
applies no id tie-break, so equal-key candidates carry no further
ordering guarantee. -/
theorem claim_C5_amended_subnet_order_sorted (net_id : Nat)
    (ip_version : Option Nat) (segment_id : Option Nat)
    (subnet_ids : Option (List Nat)) (rows : List (SubnetRow × Nat)) :
    List.Sorted SubnetOrd
      (subnet_find_ordered_by_most_full net_id ip_version segment_id
        subnet_ids rows) :=
  List.sorted_insertionSort SubnetOrd _
